import Mathlib

/-!
Verification of the ExamPrep API core (src/main.py).

The file shallowly embeds the data model and the operations of the
service: the static topic catalog TOPICS, the catalog accessors
(list_topics, get_samples) and the four-way solver dispatch (solve).
Machine floats are modelled as exact rationals, Python ints as
unbounded integers, and HTTP exceptions as an explicit error type.
-/

namespace ExamPrep

/-- JSON-like payload values, as they arrive in a request `data` dict.
Models the Python values flowing through src/main.py: `int`, `float`
and `list`.  Python floats are modelled as exact rationals (every
value any claim exercises is exactly representable).  JSON strings,
booleans and null never occur in any claim and are not modelled. -/
inductive Val where
  | int (n : ℤ)
  | float (q : ℚ)
  | list (l : List Val)

/-- A Python dict with string keys, as an insertion-ordered association list. -/
abbrev Dict := List (String × Val)

/-- Models Python `d.get(k)`: the first binding of key `k`, if any. -/
def Dict.get (d : Dict) (k : String) : Option Val :=
  (d.find? (fun p => p.1 == k)).map (·.2)

/-- Errors a request handler can produce.  `http s d` models
`HTTPException(status_code := s, detail := d)` raised in main.py;
`typeError` and `indexError` model uncaught Python `TypeError` and
`IndexError` exceptions escaping the handler (HTTP 500). -/
inductive PyErr where
  | http (status : Nat) (detail : String)
  | typeError
  | indexError
deriving DecidableEq

/-- Python `int(x)` truncation toward zero, on the rational model of a float.
Both divisions below are on non-negative operands, where `/` is plain
truncated division, so the whole function rounds toward zero exactly as
Python `int()` does on a float; on a value with denominator 1 (a Python
int) it is the identity. -/
def pyTrunc (q : ℚ) : ℤ :=
  if 0 ≤ q.num then (q.num.toNat / q.den : ℕ)
  else -((((-q.num).toNat / q.den : ℕ) : ℤ))

/-- Models Python `int(x)` on a payload value: identity on ints,
truncation toward zero on floats, `TypeError` on a list
(main.py lines 97 and 98). -/
def pyToInt : Val → Except PyErr ℤ
  | .int n => .ok n
  | .float q => .ok (pyTrunc q)
  | .list _ => .error .typeError

/-- Models Python `float(x)` on a payload value: exact numeric value of
an int or float, `TypeError` on a list (main.py lines 112 to 115, 129, 130). -/
def pyToFloat : Val → Except PyErr ℚ
  | .int n => .ok (n : ℚ)
  | .float q => .ok q
  | .list _ => .error .typeError

/-- Models Python `len(x)` on a payload value: only lists have a length,
anything else raises `TypeError` (used by the generator expressions on
main.py line 145). -/
def pyLen : Val → Except PyErr Nat
  | .list l => .ok l.length
  | _ => .error .typeError

/-- Nearest integer, ties to even: the rounding Python uses when
formatting a float with a fixed number of decimals. -/
def roundHalfEven (q : ℚ) : ℤ :=
  let f := ⌊q⌋
  let r := q - (f : ℚ)
  if r < 1/2 then f
  else if 1/2 < r then f + 1
  else if f % 2 = 0 then f else f + 1

/-- Three decimal digits with leading zeros, for a value below 1000. -/
def natPad3 (n : Nat) : String :=
  if n < 10 then "00" ++ toString n
  else if n < 100 then "0" ++ toString n
  else toString n

/-- Models the Python format specifier `:.3f` on the rational model of a
float: fixed three decimal places, rounding half to even.  Python would
round the underlying binary double; the two agree on every value a
claim exercises.  A negative value rounding to magnitude zero prints
without the minus sign (Python prints "-0.000"); no claim exercises
that case. -/
def fix3 (q : ℚ) : String :=
  let m := roundHalfEven (q * 1000)
  let sign := if m < 0 then "-" else ""
  let n := m.natAbs
  sign ++ toString (n / 1000) ++ "." ++ natPad3 (n % 1000)

/-- Nearest integer, ties to even, on a real number (used only to render
the step strings of the coordinate-geometry solver, whose distance value
is a real square root). -/
noncomputable def roundHalfEvenR (x : ℝ) : ℤ :=
  let f := ⌊x⌋
  let r := x - (f : ℝ)
  if r < 1/2 then f
  else if 1/2 < r then f + 1
  else if f % 2 = 0 then f else f + 1

/-- Fixed three decimal places of a real number, rounding half to even
(the `:.3f` format on the distance value). -/
noncomputable def fix3R (x : ℝ) : String :=
  let m := roundHalfEvenR (x * 1000)
  let sign := if m < 0 then "-" else ""
  let n := m.natAbs
  sign ++ toString (n / 1000) ++ "." ++ natPad3 (n % 1000)

/-- Decimal rendering of a Python float value, on its rational model.
Exact for values with denominator 1, the only float values any claim
renders: Python prints such a float as its integer part followed by
".0" (for example `str(4.0)` is "4.0").  Values with a larger
denominator fall back to a num/den rendering; Python would print the
shortest round-tripping decimal of the underlying double, which is not
modelled and which no claim exercises. -/
def pyFloatStr (q : ℚ) : String :=
  if q.den = 1 then toString q.num ++ ".0"
  else toString q.num ++ "/" ++ toString q.den

mutual

/-- Models Python `str(x)` on a payload value, as used in the step
strings of the matrices solver: `repr` of an int, of a float, or of a
(possibly nested) list. -/
def pyStr : Val → String
  | .int n => toString n
  | .float q => pyFloatStr q
  | .list l => "[" ++ String.intercalate ", " (pyStrList l) ++ "]"

/-- Renders each element of a list of payload values (helper of pyStr). -/
def pyStrList : List Val → List String
  | [] => []
  | v :: vs => pyStr v :: pyStrList vs

end

/-- One static sample problem of the catalog (main.py lines 14 to 59). -/
structure Sample where
  id : String
  question : String
  data : Dict
  expected : String

/-- One topic bucket of the catalog: description plus ordered samples. -/
structure TopicEntry where
  description : String
  samples : List Sample

/-- The static in-memory content catalog, in the insertion order of the
Python dict literal TOPICS (main.py lines 14 to 59). -/
def TOPICS : List (String × TopicEntry) :=
  [("probability",
    ⟨"Basics: equally likely outcomes, simple probabilities, complementary events.",
     [⟨"prob-1",
       "A bag contains 3 red and 2 blue balls. What is P(red)?",
       [("red", .int 3), ("blue", .int 2)],
       "3/5"⟩]⟩),
   ("coordinate-geometry",
    ⟨"Distance, midpoint, gradients, equation of a line.",
     [⟨"coord-1",
       "Find the distance between (1,2) and (4,6).",
       [("x1", .int 1), ("y1", .int 2), ("x2", .int 4), ("y2", .int 6)],
       "5"⟩]⟩),
   ("calculus",
    ⟨"Derivatives and basic integrals.",
     [⟨"calc-1",
       "Differentiate f(x) = 2x^2 + 3x + 1.",
       [("a", .int 2), ("b", .int 3), ("c", .int 1)],
       "f'(x) = 4x + 3"⟩]⟩),
   ("matrices",
    ⟨"2x2 addition and multiplication.",
     [⟨"mat-1",
       "Compute A·B where A=[[1,2],[3,4]], B=[[2,0],[1,2]].",
       [("A", .list [.list [.int 1, .int 2], .list [.int 3, .int 4]]),
        ("B", .list [.list [.int 2, .int 0], .list [.int 1, .int 2]])],
       "[[4, 4], [10, 8]]"⟩]⟩)]

/-- Key lookup in the catalog, modelling `TOPICS[t]` and `t in TOPICS`. -/
def topicsGet (id : String) : Option TopicEntry :=
  (TOPICS.find? (fun p => p.1 == id)).map (·.2)

/-- The `GET /topics` handler `list_topics` (main.py lines 78 to 80):
the keys of TOPICS in insertion order. -/
def list_topics : List String :=
  TOPICS.map (·.1)

/-- Response shape of the `GET /samples/topic` handler. -/
structure SamplesResp where
  topic : String
  description : String
  samples : List Sample

/-- The `GET /samples/topic` handler `get_samples` (main.py lines 83
to 88): 404 "Unknown topic" when the id is not a key of TOPICS,
otherwise the description and samples of the bucket. -/
def get_samples (topic : String) : Except PyErr SamplesResp :=
  match topicsGet topic with
  | none => .error (.http 404 "Unknown topic")
  | some bucket => .ok ⟨topic, bucket.description, bucket.samples⟩

/-- Result value of a solve response: a probability (a Python float,
modelled as the exact rational the division produces), a distance (a
real square root), a derivative string, or a 2x2 grid of payload
values. -/
inductive ResVal where
  | num (q : ℚ)
  | real (x : ℝ)
  | str (s : String)
  | grid (g : List (List Val))

/-- The solve response dict: topic, result, ordered step strings. -/
structure Resp where
  topic : String
  result : ResVal
  steps : List String

/-- The request body of `POST /solve` (main.py lines 62 to 65). -/
structure SolveRequest where
  topic : String
  sample_id : Option String
  data : Option Dict

/-- The probability branch of solve (main.py lines 96 to 109). -/
def solveProbability (data : Dict) : Except PyErr Resp := do
  let red ← pyToInt ((Dict.get data "red").getD (.int 0))
  let blue ← pyToInt ((Dict.get data "blue").getD (.int 0))
  let total := red + blue
  if total = 0 then
    .error (.http 400 "Total number of balls must be > 0")
  else
    let prob : ℚ := (red : ℚ) / (total : ℚ)
    .ok ⟨"probability", .num prob,
      ["Identify total outcomes: total = red + blue",
       "Compute total = " ++ toString red ++ " + " ++ toString blue ++ " = " ++ toString total,
       "Probability of red = red / total",
       "P(red) = " ++ toString red ++ "/" ++ toString total ++ " = " ++ fix3 prob]⟩

/-- The coordinate-geometry branch of solve (main.py lines 111 to 125).
The Python expression `(dx ** 2 + dy ** 2) ** 0.5` is the square root
of a non-negative float and is modelled as `Real.sqrt` of the exact
radicand. -/
noncomputable def solveCoordGeom (data : Dict) : Except PyErr Resp := do
  let x1 ← pyToFloat ((Dict.get data "x1").getD (.int 0))
  let y1 ← pyToFloat ((Dict.get data "y1").getD (.int 0))
  let x2 ← pyToFloat ((Dict.get data "x2").getD (.int 0))
  let y2 ← pyToFloat ((Dict.get data "y2").getD (.int 0))
  let dx := x2 - x1
  let dy := y2 - y1
  let distance : ℝ := Real.sqrt (((dx ^ 2 + dy ^ 2 : ℚ) : ℝ))
  .ok ⟨"coordinate-geometry", .real distance,
    ["Use distance formula: d = sqrt((x2-x1)^2 + (y2-y1)^2)",
     "dx = " ++ pyFloatStr x2 ++ " - " ++ pyFloatStr x1 ++ " = " ++ pyFloatStr dx,
     "dy = " ++ pyFloatStr y2 ++ " - " ++ pyFloatStr y1 ++ " = " ++ pyFloatStr dy,
     "d = sqrt(" ++ fix3 (dx ^ 2) ++ " + " ++ fix3 (dy ^ 2) ++ ") = " ++ fix3R distance]⟩

/-- The calculus branch of solve (main.py lines 127 to 138).  Both
coefficients pass through `float()`, so the f-string renders them with
`pyFloatStr` (an integral float prints with a trailing ".0"). -/
def solveCalculus (data : Dict) : Except PyErr Resp := do
  let a ← pyToFloat ((Dict.get data "a").getD (.int 0))
  let b ← pyToFloat ((Dict.get data "b").getD (.int 0))
  let derivative := "f'(x) = " ++ pyFloatStr (2 * a) ++ "x + " ++ pyFloatStr b
  .ok ⟨"calculus", .str derivative,
    ["Differentiate ax^2 -> 2ax",
     "Differentiate bx -> b",
     "Sum results",
     derivative]⟩

/-- Models `all(len(row) == 2 for row in rows)` with Python short
circuiting: stops at the first row of length other than 2, raises
`TypeError` when a row reached has no length (main.py line 145). -/
def allRowsLen2 : List Val → Except PyErr Bool
  | [] => .ok true
  | r :: rs => do
      let n ← pyLen r
      if n = 2 then allRowsLen2 rs else .ok false

/-- Indexing `v[i]` on a payload value: only lists are indexable here;
an out-of-range index raises `IndexError`, a non-list raises
`TypeError`. -/
def pyIndex : Val → Nat → Except PyErr Val
  | .list l, i =>
      match l.get? i with
      | some v => .ok v
      | none => .error .indexError
  | _, _ => .error .typeError

/-- The cell access `m[i][j]` on a validated matrix payload. -/
def cell (m : List Val) (i j : Nat) : Except PyErr Val :=
  match m.get? i with
  | some row => pyIndex row j
  | none => .error .indexError

/-- Python `x * y` on two payload values, as used on matrix cells
(main.py lines 147 to 150).  Defined on numbers; a non-numeric operand
is modelled as `TypeError`.  (Python would repeat a sequence multiplied
by an int; no claim puts a sequence or string in a matrix cell, so that
behavior is not modelled.) -/
def pyMul : Val → Val → Except PyErr Val
  | .int m, .int n => .ok (.int (m * n))
  | .int m, .float q => .ok (.float ((m : ℚ) * q))
  | .float q, .int n => .ok (.float (q * (n : ℚ)))
  | .float p, .float q => .ok (.float (p * q))
  | _, _ => .error .typeError

/-- Python `x + y` on two payload values, as used on the cell products
(main.py lines 147 to 150).  Defined on numbers; a non-numeric operand
is modelled as `TypeError` (unreachable there, since `pyMul` has
already rejected non-numeric cells). -/
def pyAdd : Val → Val → Except PyErr Val
  | .int m, .int n => .ok (.int (m + n))
  | .int m, .float q => .ok (.float ((m : ℚ) + q))
  | .float q, .int n => .ok (.float (q + (n : ℚ)))
  | .float p, .float q => .ok (.float (p + q))
  | _, _ => .error .typeError

/-- The matrices branch of solve (main.py lines 140 to 159): the
isinstance list check, the chained length check with Python short
circuiting, then the four dot-product cells in source order. -/
def solveMatrices (data : Dict) : Except PyErr Resp :=
  match Dict.get data "A", Dict.get data "B" with
  | some (Val.list A), some (Val.list B) => do
      let dims ←
        if A.length == B.length && B.length == 2 then do
          let okA ← allRowsLen2 A
          if okA then allRowsLen2 B else pure false
        else pure false
      if dims then do
        let a00 ← cell A 0 0
        let a01 ← cell A 0 1
        let a10 ← cell A 1 0
        let a11 ← cell A 1 1
        let b00 ← cell B 0 0
        let b01 ← cell B 0 1
        let b10 ← cell B 1 0
        let b11 ← cell B 1 1
        let c11 ← pyAdd (← pyMul a00 b00) (← pyMul a01 b10)
        let c12 ← pyAdd (← pyMul a00 b01) (← pyMul a01 b11)
        let c21 ← pyAdd (← pyMul a10 b00) (← pyMul a11 b10)
        let c22 ← pyAdd (← pyMul a10 b01) (← pyMul a11 b11)
        .ok ⟨"matrices", .grid [[c11, c12], [c21, c22]],
          ["Compute C = A·B for 2x2 matrices",
           "c11 = " ++ pyStr a00 ++ "*" ++ pyStr b00 ++ " + " ++ pyStr a01 ++ "*" ++ pyStr b10 ++ " = " ++ pyStr c11,
           "c12 = " ++ pyStr a00 ++ "*" ++ pyStr b01 ++ " + " ++ pyStr a01 ++ "*" ++ pyStr b11 ++ " = " ++ pyStr c12,
           "c21 = " ++ pyStr a10 ++ "*" ++ pyStr b00 ++ " + " ++ pyStr a11 ++ "*" ++ pyStr b10 ++ " = " ++ pyStr c21,
           "c22 = " ++ pyStr a10 ++ "*" ++ pyStr b01 ++ " + " ++ pyStr a11 ++ "*" ++ pyStr b11 ++ " = " ++ pyStr c22]⟩
      else .error (.http 400 "Only 2x2 matrices are supported in this demo")
  | _, _ => .error (.http 400 "A and B must be 2x2 lists")

/-- The `POST /solve` handler (main.py lines 91 to 161): take the
payload dict (defaulting to empty, `data = req.data or {}`), then
dispatch on the topic string through the if chain of the source; the
final fallback models `HTTPException(400, "Unsupported topic")`.  The
`sample_id` field of the request is never read. -/
noncomputable def solve (req : SolveRequest) : Except PyErr Resp :=
  let data := req.data.getD []
  if req.topic == "probability" then solveProbability data
  else if req.topic == "coordinate-geometry" then solveCoordGeom data
  else if req.topic == "calculus" then solveCalculus data
  else if req.topic == "matrices" then solveMatrices data
  else .error (.http 400 "Unsupported topic")

/-- A probability request with integer red and blue counts. -/
def probReq (red blue : ℤ) : SolveRequest :=
  ⟨"probability", none, some [("red", .int red), ("blue", .int blue)]⟩

/-- A coordinate-geometry request with four float coordinates. -/
def geomReq (x1 y1 x2 y2 : ℚ) : SolveRequest :=
  ⟨"coordinate-geometry", none,
   some [("x1", .float x1), ("y1", .float y1), ("x2", .float x2), ("y2", .float y2)]⟩

/-- A matrices request with the given raw A and B payload values. -/
def matReq (A B : Val) : SolveRequest :=
  ⟨"matrices", none, some [("A", A), ("B", B)]⟩

/-- A matrices data dict built from optional raw A and B payloads,
omitting absent keys. -/
def mkMatData (A? B? : Option Val) : Dict :=
  (match A? with | some a => [("A", a)] | none => []) ++
  (match B? with | some b => [("B", b)] | none => [])

/-- Whether an optional payload value is present and a list: the
`isinstance(x, list)` test of main.py line 143 applied to the result of
`data.get`. -/
def isPyList : Option Val → Bool
  | some (.list _) => true
  | _ => false

/-- A strict 2x2 integer matrix payload. -/
def mat2Int (a b c d : ℤ) : Val :=
  .list [.list [.int a, .int b], .list [.int c, .int d]]

/-- A strict 2x2 float matrix payload. -/
def mat2Rat (a b c d : ℚ) : Val :=
  .list [.list [.float a, .float b], .list [.float c, .float d]]

/-! Helper lemmas shared by the claim theorems. -/

/-- Evaluation of the probability branch on integer counts whose sum is
nonzero: the result is the exact quotient red over total. -/
lemma solve_prob_pos (red blue : ℤ) (h : red + blue ≠ 0) :
    (solve (probReq red blue)).map Resp.result =
      .ok (.num ((red : ℚ) / (((red + blue : ℤ) : ℚ)))) := by
  show (solveProbability [("red", Val.int red), ("blue", Val.int blue)]).map Resp.result = _
  unfold solveProbability
  simp [Dict.get, List.find?, pyToInt, bind, Except.bind, if_neg h, Except.map]

/-- On rows that are genuine lists the validation loop cannot raise and
computes exactly the conjunction of the length tests. -/
lemma allRowsLen2_lists (rows : List (List Val)) :
    allRowsLen2 (rows.map Val.list) = .ok (rows.all (fun r => r.length == 2)) := by
  induction rows with
  | nil => rfl
  | cons r rs ih =>
    by_cases h : r.length = 2
    · simp [allRowsLen2, pyLen, h, ih, bind, Except.bind]
    · simp [allRowsLen2, pyLen, h, bind, Except.bind]

/-- Lookup of the key A in a two-entry matrices payload dict. -/
lemma dictGet_AB_A (a b : Val) : Dict.get [("A", a), ("B", b)] "A" = some a := rfl

/-- Lookup of the key B in a two-entry matrices payload dict. -/
lemma dictGet_AB_B (a b : Val) : Dict.get [("A", a), ("B", b)] "B" = some b := rfl

/-! Claim theorems. -/

/-- Claim C1.  The claim states that solve on topic calculus with the
data of the static sample calc-1 returns the string with coefficients
rendered 4 and 3, matching the expected answer stored in the catalog.
The code disagrees: both coefficients pass through a float conversion,
so the f-string renders them as 4.0 and 3.0.  This theorem evaluates
the code at the sample data: the result string carries the trailing
".0" renderings, the catalog entry calc-1 stores the claimed string
for exactly this data payload, and the two strings differ — the code
contradicts its own static fixture. -/
theorem c1_calculus_sample_mismatch :
    (solve ⟨"calculus", none, some [("a", .int 2), ("b", .int 3), ("c", .int 1)]⟩).map Resp.result =
        .ok (.str "f'(x) = 4.0x + 3.0") ∧
      (topicsGet "calculus").map (fun b => b.samples.map Sample.expected) = some ["f'(x) = 4x + 3"] ∧
      (topicsGet "calculus").map (fun b => b.samples.map Sample.data) =
        some [[("a", Val.int 2), ("b", Val.int 3), ("c", Val.int 1)]] ∧
      ("f'(x) = 4.0x + 3.0" : String) ≠ "f'(x) = 4x + 3" := by
  refine ⟨?_, rfl, rfl, by decide⟩
  have h : (solve ⟨"calculus", none, some [("a", .int 2), ("b", .int 3), ("c", .int 1)]⟩).map Resp.result =
      .ok (.str ("f'(x) = " ++ pyFloatStr (2 * ((2:ℤ):ℚ)) ++ "x + " ++ pyFloatStr ((3:ℤ):ℚ))) := rfl
  have h1 : pyFloatStr (2 * ((2:ℤ):ℚ)) = "4.0" := by norm_num [pyFloatStr]; rfl
  have h2 : pyFloatStr ((3:ℤ):ℚ) = "3.0" := by norm_num [pyFloatStr]; rfl
  rw [h, h1, h2]
  rfl

/-- Claim C2, counterexample.  The claim asserts the zero-total failure
carries the reason "total must be > 0"; the code raises the detail
"Total number of balls must be > 0" instead, both on explicit zero
counts and on an absent payload. -/
theorem c2_probability_reason_cex :
    solve (probReq 0 0) = .error (.http 400 "Total number of balls must be > 0") ∧
      solve ⟨"probability", none, none⟩ = .error (.http 400 "Total number of balls must be > 0") ∧
      ("Total number of balls must be > 0" : String) ≠ "total must be > 0" :=
  ⟨rfl, rfl, by decide⟩

/-- Claim C2, amended.  For non-negative integer counts with positive
sum, solve on topic probability succeeds with result red over
red plus blue; when both counts are zero — explicitly, or because the
fields or the whole payload are absent and default to 0 — it fails
with HTTP 400 carrying the detail "Total number of balls must be > 0"
(the claim had quoted the reason as "total must be > 0"). -/
theorem c2_probability_amended :
    (∀ red blue : ℤ, 0 ≤ red → 0 ≤ blue → 0 < red + blue →
        (solve (probReq red blue)).map Resp.result =
          .ok (.num ((red : ℚ) / ((red : ℚ) + (blue : ℚ))))) ∧
      solve (probReq 0 0) = .error (.http 400 "Total number of balls must be > 0") ∧
      solve ⟨"probability", none, none⟩ = .error (.http 400 "Total number of balls must be > 0") := by
  refine ⟨?_, rfl, rfl⟩
  intro red blue h1 h2 h3
  have h := solve_prob_pos red blue (by omega)
  push_cast at h
  exact h

/-- Claim C2, witness: the amended theorem applied at red 3, blue 2. -/
theorem c2_probability_witness :
    (0:ℤ) ≤ 3 ∧ (0:ℤ) ≤ 2 ∧ (0:ℤ) < 3 + 2 ∧
      (solve (probReq 3 2)).map Resp.result = .ok (.num ((3:ℚ)/5)) := by
  refine ⟨by decide, by decide, by decide, ?_⟩
  have h := c2_probability_amended.1 3 2 (by decide) (by decide) (by decide)
  norm_num at h
  exact h

/-- Claim C3, counterexample.  The claim asserts every malformed A or B
fails with the single reason "A and B must be 2x2" and in no other
way.  The code disagrees twice: a 2x3 matrix A fails with the detail
"Only 2x2 matrices are supported in this demo" (a different string),
and an A that is a flat list of numbers passes the isinstance check
but crashes with an uncaught TypeError when the row length generator
calls len on a number. -/
theorem c3_matrices_reason_cex :
    solve (matReq (.list [.list [.int 1, .int 2, .int 3], .list [.int 4, .int 5, .int 6]])
          (.list [.list [.int 1, .int 0], .list [.int 0, .int 1]])) =
        .error (.http 400 "Only 2x2 matrices are supported in this demo") ∧
      ("Only 2x2 matrices are supported in this demo" : String) ≠ "A and B must be 2x2" ∧
      ("A and B must be 2x2 lists" : String) ≠ "A and B must be 2x2" ∧
      solve (matReq (.list [.int 1, .int 2]) (.list [.list [.int 1, .int 0], .list [.int 0, .int 1]])) =
        .error .typeError :=
  ⟨rfl, by decide, by decide, rfl⟩

/-- Claim C3, amended.  On topic matrices the code fails with HTTP 400
and the detail "A and B must be 2x2 lists" whenever A or B is missing
or not a list; with HTTP 400 and the detail "Only 2x2 matrices are
supported in this demo" whenever both are lists of lists and some
dimension differs from 2; and a list whose row is a bare number
slips past the isinstance check and raises an uncaught TypeError
instead of an HTTP 400. -/
theorem c3_matrices_amended :
    (∀ A? B? : Option Val, (isPyList A? = false ∨ isPyList B? = false) →
        solve ⟨"matrices", none, some (mkMatData A? B?)⟩ =
          .error (.http 400 "A and B must be 2x2 lists")) ∧
      (∀ A B : List (List Val),
        ¬(A.length = 2 ∧ B.length = 2 ∧ (∀ r ∈ A, r.length = 2) ∧ (∀ r ∈ B, r.length = 2)) →
        solve (matReq (.list (A.map Val.list)) (.list (B.map Val.list))) =
          .error (.http 400 "Only 2x2 matrices are supported in this demo")) ∧
      solve (matReq (.list [.int 1, .int 2]) (.list [.list [.int 1, .int 0], .list [.int 0, .int 1]])) =
        .error .typeError := by
  refine ⟨?_, ?_, rfl⟩
  · intro A? B? h
    rcases A? with _ | (n | q | A) <;> rcases B? with _ | (m | p | B) <;>
      first
      | rfl
      | simp [isPyList] at h
  · intro A B h
    show solveMatrices [("A", Val.list (A.map Val.list)), ("B", Val.list (B.map Val.list))] = _
    simp only [solveMatrices, dictGet_AB_A, dictGet_AB_B, List.length_map]
    by_cases hA : A.length = 2 <;> by_cases hB : B.length = 2
    · have hc : (A.length == B.length && B.length == 2) = true := by
        simp [beq_iff_eq, hA, hB]
      rw [hc]
      simp only [allRowsLen2_lists, bind, Except.bind, if_true]
      by_cases hAll : A.all (fun r => r.length == 2) = true
      · have hBall : B.all (fun r => r.length == 2) = false := by
          by_contra hcon
          simp only [Bool.not_eq_false, List.all_eq_true, beq_iff_eq] at hcon
          rw [List.all_eq_true] at hAll
          simp only [beq_iff_eq] at hAll
          exact h ⟨hA, hB, hAll, hcon⟩
        rw [hAll]
        simp [hBall, pure, Except.pure]
      · simp only [Bool.not_eq_true] at hAll
        rw [hAll]
        simp [pure, Except.pure]
    all_goals {
      have hc : (A.length == B.length && B.length == 2) = false := by
        simp only [Bool.and_eq_false_iff, beq_iff_eq, beq_eq_false_iff_ne]
        omega
      rw [hc]
      simp [bind, Except.bind, pure, Except.pure] }

/-- Claim C3, witness: the amended theorem applied to a non-list A and
to a 2x3 by 2x2 pair. -/
theorem c3_matrices_witness :
    (isPyList (some (Val.int 5)) = false ∨ isPyList (some (Val.list [])) = false) ∧
      solve ⟨"matrices", none, some (mkMatData (some (Val.int 5)) (some (Val.list [])))⟩ =
        .error (.http 400 "A and B must be 2x2 lists") ∧
      ¬([[Val.int 1, Val.int 2, Val.int 3], [Val.int 4, Val.int 5, Val.int 6]].length = 2 ∧
          [[Val.int 1, Val.int 0], [Val.int 0, Val.int 1]].length = 2 ∧
          (∀ r ∈ [[Val.int 1, Val.int 2, Val.int 3], [Val.int 4, Val.int 5, Val.int 6]], r.length = 2) ∧
          (∀ r ∈ [[Val.int 1, Val.int 0], [Val.int 0, Val.int 1]], r.length = 2)) ∧
      solve (matReq
          (.list ([[Val.int 1, Val.int 2, Val.int 3], [Val.int 4, Val.int 5, Val.int 6]].map Val.list))
          (.list ([[Val.int 1, Val.int 0], [Val.int 0, Val.int 1]].map Val.list))) =
        .error (.http 400 "Only 2x2 matrices are supported in this demo") :=
  ⟨Or.inl rfl,
   c3_matrices_amended.1 (some (Val.int 5)) (some (Val.list [])) (Or.inl rfl),
   by decide,
   c3_matrices_amended.2.1
     [[Val.int 1, Val.int 2, Val.int 3], [Val.int 4, Val.int 5, Val.int 6]]
     [[Val.int 1, Val.int 0], [Val.int 0, Val.int 1]] (by decide)⟩

/-- Claim C4.  For every pair of strict 2x2 numeric matrices — all
integer cells or all float cells — solve on topic matrices succeeds
and its result grid carries the four standard dot products
c i j = A i 0 * B 0 j + A i 1 * B 1 j; in particular the static
sample pair gives the grid 4 4, 10 8. -/
theorem c4_matrices_product :
    (∀ a b c d e f g h : ℤ,
        (solve (matReq (mat2Int a b c d) (mat2Int e f g h))).map Resp.result =
          .ok (.grid [[.int (a*e + b*g), .int (a*f + b*h)],
                      [.int (c*e + d*g), .int (c*f + d*h)]])) ∧
      (∀ a b c d e f g h : ℚ,
        (solve (matReq (mat2Rat a b c d) (mat2Rat e f g h))).map Resp.result =
          .ok (.grid [[.float (a*e + b*g), .float (a*f + b*h)],
                      [.float (c*e + d*g), .float (c*f + d*h)]])) ∧
      (solve (matReq (mat2Int 1 2 3 4) (mat2Int 2 0 1 2))).map Resp.result =
        .ok (.grid [[.int 4, .int 4], [.int 10, .int 8]]) :=
  ⟨fun _ _ _ _ _ _ _ _ => rfl, fun _ _ _ _ _ _ _ _ => rfl, rfl⟩

/-- Claim C5.  For every choice of rational coordinates (every payload
value a JSON number can carry), solve on topic coordinate-geometry
succeeds, and its result is the non-negative real number whose square
is the sum of the squared coordinate differences — that is, the
distance sqrt of (x2-x1)^2 + (y2-y1)^2; with the payload absent all
four coordinates default to 0 and the result is 0. -/
theorem c5_coordgeom_always_succeeds :
    (∀ x1 y1 x2 y2 : ℚ, ∃ r : ℝ,
        (solve (geomReq x1 y1 x2 y2)).map Resp.result = .ok (.real r) ∧
          0 ≤ r ∧ r ^ 2 = ((x2:ℝ) - (x1:ℝ)) ^ 2 + ((y2:ℝ) - (y1:ℝ)) ^ 2) ∧
      (∃ r : ℝ, (solve ⟨"coordinate-geometry", none, none⟩).map Resp.result = .ok (.real r) ∧ r = 0) := by
  constructor
  · intro x1 y1 x2 y2
    refine ⟨Real.sqrt (((x2 - x1) ^ 2 + (y2 - y1) ^ 2 : ℚ) : ℝ), rfl, Real.sqrt_nonneg _, ?_⟩
    rw [Real.sq_sqrt (by positivity)]
    push_cast
    ring
  · refine ⟨_, rfl, ?_⟩
    norm_num [Real.sqrt_eq_zero']

/-- Claim C6.  The coordinate-geometry result is symmetric under
swapping the two points: solve gives the same output value for
(x1,y1,x2,y2) and for (x2,y2,x1,y1). -/
theorem c6_coordgeom_symmetric :
    ∀ x1 y1 x2 y2 : ℚ,
      (solve (geomReq x1 y1 x2 y2)).map Resp.result =
        (solve (geomReq x2 y2 x1 y1)).map Resp.result := by
  intro x1 y1 x2 y2
  have h : ((x2 - x1) ^ 2 + (y2 - y1) ^ 2 : ℚ) = ((x1 - x2) ^ 2 + (y1 - y2) ^ 2 : ℚ) := by ring
  show Except.ok (ResVal.real (Real.sqrt (((x2 - x1) ^ 2 + (y2 - y1) ^ 2 : ℚ) : ℝ))) =
       Except.ok (ResVal.real (Real.sqrt (((x1 - x2) ^ 2 + (y1 - y2) ^ 2 : ℚ) : ℝ)))
  rw [h]

/-- Claim C7.  Listing topics returns exactly the four known
identifiers in the fixed insertion order of the catalog; list_topics
is a pure constant of the process, so every call returns this same
list. -/
theorem c7_list_topics_fixed :
    list_topics = ["probability", "coordinate-geometry", "calculus", "matrices"] := rfl

/-- Claim C8.  Fetching samples fails with 404 "Unknown topic" for
every identifier outside the four listed topics, and succeeds for each
of the four with a response carrying a non-empty samples list; being a
pure lookup it has no other failure mode and no side effect. -/
theorem c8_get_samples_spec :
    (∀ id : String, id ∉ list_topics → get_samples id = .error (.http 404 "Unknown topic")) ∧
      (∀ id : String, id ∈ list_topics →
        ∃ resp : SamplesResp, get_samples id = .ok resp ∧ resp.samples ≠ []) := by
  constructor
  · intro id h
    simp [list_topics, TOPICS] at h
    push_neg at h
    obtain ⟨e1, e2, e3, e4⟩ := h
    simp [get_samples, topicsGet, TOPICS, List.find?,
      (show (("probability" : String) == id) = false by simp [e1.symm]),
      (show (("coordinate-geometry" : String) == id) = false by simp [e2.symm]),
      (show (("calculus" : String) == id) = false by simp [e3.symm]),
      (show (("matrices" : String) == id) = false by simp [e4.symm])]
  · intro id h
    simp [list_topics, TOPICS] at h
    rcases h with rfl | rfl | rfl | rfl <;> exact ⟨_, rfl, by simp⟩

/-- Claim C8, witness: the spec applied at the unknown identifier
"unknown" and at the known identifier "probability". -/
theorem c8_get_samples_witness :
    ("unknown" ∉ list_topics) ∧
      get_samples "unknown" = .error (.http 404 "Unknown topic") ∧
      ("probability" ∈ list_topics) ∧
      (∃ resp : SamplesResp, get_samples "probability" = .ok resp ∧ resp.samples ≠ []) :=
  ⟨by decide,
   c8_get_samples_spec.1 "unknown" (by decide),
   by decide,
   c8_get_samples_spec.2 "probability" (by decide)⟩

/-- Claim C9.  The solve output never depends on the sample_id field:
for any topic and payload, two requests differing only in sample_id
produce identical outcomes (same result, same steps, or the same
error); the handler never reads the field. -/
theorem c9_sample_id_ignored :
    ∀ (topic : String) (data : Option Dict) (sid1 sid2 : Option String),
      solve ⟨topic, sid1, data⟩ = solve ⟨topic, sid2, data⟩ :=
  fun _ _ _ _ => rfl

/-- Claim C10.  The probability evaluator validates nothing beyond a
nonzero total: with red -1 and blue 3 it succeeds and returns -1/2, a
value below 0 and hence outside the unit interval; the int conversion
truncates float inputs toward zero (2.9 to 2, -2.9 to -2); and every
integer pair with nonzero sum — negative counts included — succeeds. -/
theorem c10_probability_unvalidated :
    (solve (probReq (-1) 3)).map Resp.result = .ok (.num (-(1/2 : ℚ))) ∧
      (-(1/2 : ℚ)) < 0 ∧
      (pyToInt (.float ((29:ℚ)/10)) = .ok 2 ∧ pyToInt (.float (-((29:ℚ)/10))) = .ok (-2)) ∧
      (∀ red blue : ℤ, red + blue ≠ 0 →
        ∃ q : ℚ, (solve (probReq red blue)).map Resp.result = .ok (.num q)) := by
  refine ⟨?_, by norm_num, ⟨?_, ?_⟩, fun red blue h => ⟨_, solve_prob_pos red blue h⟩⟩
  · have h := solve_prob_pos (-1) 3 (by decide)
    norm_num at h
    exact h
  · norm_num [pyToInt, pyTrunc]
  · norm_num [pyToInt, pyTrunc]

/-- Claim C10, witness: the universally quantified part applied at the
negative-total pair red -2, blue 1. -/
theorem c10_probability_witness :
    ((-2 : ℤ) + 1 ≠ 0) ∧
      ∃ q : ℚ, (solve (probReq (-2) 1)).map Resp.result = .ok (.num q) :=
  ⟨by decide, c10_probability_unvalidated.2.2.2 (-2) 1 (by decide)⟩

end ExamPrep
